import Mathlib

/-!
Shallow embedding of the astro-swarm simulation core (Rust sources under
src/), covering: the tile/resource data model, the per-agent knowledge map
(src/robot/knowledge.rs, src/robot/core/knowledge.rs), the world grid and
its resource store (src/map/noise.rs, src/map/resources.rs), the agent
state and cargo handling (src/robot/state.rs), movement primitives
(src/robot/movement.rs, src/robot/core/movement.rs, src/robot/common.rs),
the station-side merge protocol (src/station/data_manager.rs,
src/station/station.rs), and the event routing between station, app loop
and agents (src/app.rs).

Rust HashMaps are embedded as unique-key association lists with
lookup/insert/erase operations (insert replaces the existing binding,
matching HashMap::insert); chrono timestamps are embedded as Nat (only
their ordering is used by the code); randomness (direction choice, sleep
durations) is embedded by passing the randomly chosen value as an explicit
oracle parameter.
-/

set_option autoImplicit false

set_option maxRecDepth 100000

/-- Resource kinds, from ResourceType in src/communication/channels.rs and
src/map/resources.rs (the two enums are identical and converted
one-to-one by src/map/noise.rs, so a single type embeds both). -/
inductive ResourceType
  | Energy
  | Minerals
  | SciencePoints
deriving DecidableEq, Repr

/-- Tile contents as an agent knows them, from TileInfo in
src/robot/knowledge.rs (identical to src/robot/core/knowledge.rs). -/
inductive TileInfo
  | Unknown
  | Walkable
  | Obstacle
  | Resource (resource_type : ResourceType) (amount : Nat)
  | Station
deriving DecidableEq, Repr

/-- Association-list lookup; embeds HashMap::get. -/
def alookup {κ α : Type} [DecidableEq κ] (k : κ) : List (κ × α) → Option α
  | [] => none
  | (k2, v) :: rest => if k2 = k then some v else alookup k rest

/-- Association-list binding removal; embeds HashMap::remove (on the
unique-key lists built by ainsert it removes exactly the binding for k). -/
def aerase {κ α : Type} [DecidableEq κ] (k : κ) : List (κ × α) → List (κ × α)
  | [] => []
  | (k2, v) :: rest => if k2 = k then aerase k rest else (k2, v) :: aerase k rest

/-- Association-list insert-or-replace; embeds HashMap::insert. -/
def ainsert {κ α : Type} [DecidableEq κ] (k : κ) (v : α) (l : List (κ × α)) :
    List (κ × α) :=
  (k, v) :: aerase k l

/-- One row of the initial knowledge grid: the x-loop body of
RobotKnowledge::new (src/robot/knowledge.rs lines 28-32), which inserts
TileInfo::Unknown at (x, y) for x in 0..width. -/
def gridRow (y w : Nat) : List ((Nat × Nat) × TileInfo) :=
  (List.range w).map (fun x => ((x, y), TileInfo.Unknown))

/-- The full initial knowledge grid: the nested y/x loops of
RobotKnowledge::new, inserting Unknown at every (x, y) of the grid
(each key inserted exactly once, so insertion order is immaterial). -/
def gridInit (w h : Nat) : List ((Nat × Nat) × TileInfo) :=
  (List.range h).foldr (fun y acc => gridRow y w ++ acc) []

/-- Per-agent knowledge map, from RobotKnowledge in src/robot/knowledge.rs
(structurally identical to src/robot/core/knowledge.rs). -/
structure RobotKnowledge where
  map : List ((Nat × Nat) × TileInfo)
  width : Nat
  height : Nat
deriving DecidableEq, Repr

/-- RobotKnowledge::new (src/robot/knowledge.rs lines 24-38): every grid
coordinate is bound to Unknown, then the single center (w/2, h/2) is
overwritten with Station. -/
def RobotKnowledge.new (width height : Nat) : RobotKnowledge :=
  { map := ainsert (width / 2, height / 2) TileInfo.Station (gridInit width height)
    width := width
    height := height }

/-- RobotKnowledge::get_tile (src/robot/knowledge.rs lines 51-53):
lookup with default Unknown. -/
def RobotKnowledge.get_tile (k : RobotKnowledge) (x y : Nat) : TileInfo :=
  (alookup (x, y) k.map).getD TileInfo.Unknown

/-- RobotKnowledge::update_tile (src/robot/knowledge.rs lines 40-49):
in-bounds updates are stored, out-of-bounds updates are dropped (the Rust
only logs an error there). -/
def RobotKnowledge.update_tile (k : RobotKnowledge) (x y : Nat) (info : TileInfo) :
    RobotKnowledge :=
  if x < k.width ∧ y < k.height then { k with map := ainsert (x, y) info k.map } else k

/-- RobotKnowledge::get_station_coords (src/robot/knowledge.rs lines 77-79). -/
def RobotKnowledge.get_station_coords (k : RobotKnowledge) : Nat × Nat :=
  (k.width / 2, k.height / 2)

/-- A resource deposit, from Resource in src/map/resources.rs. -/
structure Resource where
  resource_type : ResourceType
  amount : Nat
deriving DecidableEq, Repr

/-- The sparse resource store, from ResourceManager in src/map/resources.rs. -/
structure ResourceManager where
  resources : List ((Nat × Nat) × Resource)
deriving DecidableEq, Repr

/-- ResourceManager::get_resource (src/map/resources.rs lines 37-39). -/
def ResourceManager.get_resource (rm : ResourceManager) (x y : Nat) : Option Resource :=
  alookup (x, y) rm.resources

/-- ResourceManager::remove_resource (src/map/resources.rs lines 41-43):
HashMap::remove, returning the removed binding. -/
def ResourceManager.remove_resource (rm : ResourceManager) (x y : Nat) :
    ResourceManager × Option Resource :=
  (⟨aerase (x, y) rm.resources⟩, alookup (x, y) rm.resources)

/-- ResourceManager::has_resource (src/map/resources.rs lines 45-47). -/
def ResourceManager.has_resource (rm : ResourceManager) (x y : Nat) : Bool :=
  (alookup (x, y) rm.resources).isSome

/-- ResourceManager::add_resource (src/map/resources.rs lines 49-51). -/
def ResourceManager.add_resource (rm : ResourceManager) (x y : Nat)
    (resource_type : ResourceType) (amount : Nat) : ResourceManager :=
  ⟨ainsert (x, y) ⟨resource_type, amount⟩ rm.resources⟩

/-- Consumability test, from the matches! over Energy | Minerals in
src/map/noise.rs line 233 (and src/station/data_manager.rs lines 195-198). -/
def ResourceType.is_consumable : ResourceType → Bool
  | .Energy => true
  | .Minerals => true
  | .SciencePoints => false

/-- The world grid, from Map in src/map/noise.rs. The obstacle matrix
data[y][x] is embedded as a function of (y, x); Map::new's Perlin-noise
terrain generation and region-connection repair are construction-time
utilities outside the claims, so Map values are given directly by their
fields. -/
structure Map where
  width : Nat
  height : Nat
  station_area : List (Nat × Nat)
  data : Nat → Nat → Bool
  resource_manager : ResourceManager

/-- Map::is_obstacle (src/map/noise.rs lines 281-286): out of bounds is
treated as an obstacle. -/
def Map.is_obstacle (m : Map) (x y : Nat) : Bool :=
  if x ≥ m.width ∨ y ≥ m.height then true else m.data y x

/-- Map::is_station (src/map/noise.rs lines 288-290). -/
def Map.is_station (m : Map) (x y : Nat) : Bool :=
  decide ((x, y) ∈ m.station_area)

/-- Map::get_resource (src/map/noise.rs lines 198-213); the internal
resource type converts one-to-one to the channel resource type, so the
conversion is the identity here. -/
def Map.get_resource (m : Map) (x y : Nat) : Option (ResourceType × Nat) :=
  (m.resource_manager.get_resource x y).map (fun r => (r.resource_type, r.amount))

/-- Map::has_resource (src/map/noise.rs lines 277-279). -/
def Map.has_resource (m : Map) (x y : Nat) : Bool :=
  m.resource_manager.has_resource x y

/-- Map::remove_resource (src/map/noise.rs lines 223-247): reads the
resource, actually deletes the entry only when the type is consumable
(Energy or Minerals), and returns the prior (type, amount) in all
present cases. -/
def Map.remove_resource (m : Map) (x y : Nat) : Map × Option (ResourceType × Nat) :=
  match m.resource_manager.get_resource x y with
  | none => (m, none)
  | some r =>
    let rm2 := if r.resource_type.is_consumable
      then (m.resource_manager.remove_resource x y).1
      else m.resource_manager
    ({ m with resource_manager := rm2 }, some (r.resource_type, r.amount))

/-- Map::add_resource (src/map/noise.rs lines 249-263). -/
def Map.add_resource (m : Map) (x y : Nat) (resource_type : ResourceType)
    (amount : Nat) : Map :=
  { m with resource_manager := m.resource_manager.add_resource x y resource_type amount }

/-- Concrete 5x5 world used as witness input: no obstacles, a Minerals
deposit of 100 at (1, 2) and a SciencePoints deposit of 4 at (3, 3). -/
def witnessMap : Map :=
  { width := 5
    height := 5
    station_area := [(1, 1), (2, 1), (3, 1), (1, 2), (2, 2), (3, 2), (1, 3), (2, 3), (3, 3)]
    data := fun _ _ => false
    resource_manager := ⟨[((1, 2), ⟨ResourceType.Minerals, 100⟩),
                          ((3, 3), ⟨ResourceType.SciencePoints, 4⟩)]⟩ }

/-- Robot lifecycle states, from RobotStatus in src/robot/state.rs. -/
inductive RobotStatus
  | Idle
  | Exploring
  | Collecting
  | Analyzing
  | ReturningToStation
  | AtStation
deriving DecidableEq, Repr

/-- Per-agent mutable state, from RobotState in src/robot/state.rs; the
cargo HashMap<ResourceType, u32> is an association list keyed by
ResourceType. -/
structure RobotState where
  id : Nat
  x : Nat
  y : Nat
  energy : Nat
  max_energy : Nat
  collected_resources : List (ResourceType × Nat)
  max_capacity : Nat
  status : RobotStatus
deriving DecidableEq, Repr

/-- Total carried amount: collected_resources.values().sum(), as read by
RobotState::collect_resource and RobotState::is_full. -/
def cargoTotal (l : List (ResourceType × Nat)) : Nat :=
  (l.map Prod.snd).sum

/-- RobotState::use_energy (src/robot/state.rs lines 40-48): deduct when
affordable, otherwise clamp energy to zero and fail. -/
def RobotState.use_energy (st : RobotState) (amount : Nat) : RobotState × Bool :=
  if st.energy ≥ amount then ({ st with energy := st.energy - amount }, true)
  else ({ st with energy := 0 }, false)

/-- Cargo update for a successful collection: the
entry(resource_type).or_insert(0) += amount of src/robot/state.rs line 54. -/
def bumpEntry (t : ResourceType) (amount : Nat) :
    List (ResourceType × Nat) → List (ResourceType × Nat)
  | [] => [(t, amount)]
  | (t2, v) :: rest =>
    if t2 = t then (t2, v + amount) :: rest else (t2, v) :: bumpEntry t amount rest

/-- RobotState::collect_resource (src/robot/state.rs lines 50-59):
all-or-nothing, succeeds exactly when the carried total plus the offered
amount fits max_capacity. -/
def RobotState.collect_resource (st : RobotState) (t : ResourceType) (amount : Nat) :
    RobotState × Bool :=
  if cargoTotal st.collected_resources + amount ≤ st.max_capacity then
    ({ st with collected_resources := bumpEntry t amount st.collected_resources }, true)
  else (st, false)

/-- RobotState::is_full (src/robot/state.rs lines 61-64). -/
def RobotState.is_full (st : RobotState) : Bool :=
  decide (cargoTotal st.collected_resources ≥ st.max_capacity)

/-- The collection write-lock section of CollectionRobot::start
(src/robot/collection.rs lines 126-186): re-check the resource under the
exclusive lock, attempt the all-or-nothing cargo update, and only on
success remove the deposit from the grid. Returns the updated state, the
updated map, the remove_successful flag and amount_collected. Lock
acquisition errors (poisoning) abort the thread in Rust and are outside
this sequential embedding. -/
def collectionAttempt (st : RobotState) (target : ResourceType) (m : Map) :
    RobotState × Map × Bool × Nat :=
  match m.get_resource st.x st.y with
  | some (res_type, amount) =>
    if res_type = target ∧ amount > 0 then
      match st.collect_resource target amount with
      | (st2, true) =>
        match m.remove_resource st.x st.y with
        | (m2, some _) => (st2, m2, true, amount)
        | (m2, none) => (st2, m2, false, amount)
      | (st2, false) => (st2, m, false, 0)
    else (st, m, false, 0)
  | none => (st, m, false, 0)

/-- Agent state used as witness input: a collector with max_capacity 50,
empty cargo, standing at (1, 2). -/
def witnessCollector : RobotState :=
  { id := 7, x := 1, y := 2, energy := 100, max_energy := 100,
    collected_resources := [], max_capacity := 50,
    status := RobotStatus.Collecting }

/-- Movement directions, from Direction in src/robot/movement.rs
(identical to src/robot/core/movement.rs). -/
inductive Direction
  | Up
  | Down
  | Left
  | Right
deriving DecidableEq, Repr

/-- Direction::all (src/robot/movement.rs lines 15-17). -/
def Direction.all : List Direction :=
  [Direction.Up, Direction.Down, Direction.Left, Direction.Right]

/-- next_position (src/robot/movement.rs lines 29-36): saturating_sub at
the low edges, min against width-1 / height-1 at the high edges. -/
def next_position (x y : Nat) (dir : Direction) (m : Map) : Nat × Nat :=
  match dir with
  | Direction.Up => (x, y - 1)
  | Direction.Down => (x, min (y + 1) (m.height - 1))
  | Direction.Left => (x - 1, y)
  | Direction.Right => (min (x + 1) (m.width - 1), y)

/-- is_valid_move (src/robot/core/movement.rs lines 46-48, identical to
src/robot/movement.rs lines 38-40). -/
def is_valid_move (x y : Nat) (m : Map) : Bool :=
  decide (x < m.width) && decide (y < m.height) && !(m.is_obstacle x y)

/-- Per-role configuration, from RobotTypeConfig in src/robot/config.rs.
The sleep bounds only pace the thread and carry no state. -/
structure RobotTypeConfig where
  low_energy_threshold : Nat
  primary_action_sleep_min_ms : Nat
  primary_action_sleep_max_ms : Nat
  movement_energy_cost : Nat
  action_energy_cost : Option Nat
deriving DecidableEq, Repr

/-- EXPLORATION_CONFIG (src/robot/config.rs lines 28-34). -/
def EXPLORATION_CONFIG : RobotTypeConfig :=
  { low_energy_threshold := 20
    primary_action_sleep_min_ms := 300
    primary_action_sleep_max_ms := 600
    movement_energy_cost := 1
    action_energy_cost := none }

/-- COLLECTION_CONFIG (src/robot/config.rs lines 36-42). -/
def COLLECTION_CONFIG : RobotTypeConfig :=
  { low_energy_threshold := 25
    primary_action_sleep_min_ms := 400
    primary_action_sleep_max_ms := 900
    movement_energy_cost := 2
    action_energy_cost := some 3 }

/-- RobotKnowledge::observe_and_update (src/robot/knowledge.rs lines
55-75): classify the ground-truth tile (Station over Obstacle over
positive Resource over Walkable) and record it; out-of-map observations
are dropped. -/
def RobotKnowledge.observe_and_update (k : RobotKnowledge) (x y : Nat) (m : Map) :
    RobotKnowledge :=
  if x ≥ m.width ∨ y ≥ m.height then k
  else
    let info :=
      if m.is_station x y then TileInfo.Station
      else if m.is_obstacle x y then TileInfo.Obstacle
      else
        match m.get_resource x y with
        | some (res_type, amount) =>
          if amount > 0 then TileInfo.Resource res_type amount else TileInfo.Walkable
        | none => TileInfo.Walkable
    k.update_tile x y info

/-- The observation block of the Exploring arm (src/robot/exploration.rs
lines 75-88): observe the current tile, then each neighbor whose
next_position differs from the current position. -/
def observeSurroundings (k : RobotKnowledge) (x y : Nat) (m : Map) : RobotKnowledge :=
  Direction.all.foldl
    (fun acc dir =>
      let np := next_position x y dir m
      if np ≠ (x, y) then acc.observe_and_update np.1 np.2 m else acc)
    (k.observe_and_update x y m)

/-- One Exploring-state tick of ExplorationRobot::start
(src/robot/exploration.rs lines 48-146): low-energy check first (with the
visited-set cleared on the transition), otherwise observe, pick a
direction (the smart_direction/random choice is passed in as dirOracle),
and perform the guarded move, paying movement_energy_cost and recording
the new position in the visited set on success. The returned Bool is the
moved flag (it gates the ExplorationData event, which carries no further
state). -/
def explorationTick (cfg : RobotTypeConfig) (m : Map) (dirOracle : Direction)
    (st : RobotState) (k : RobotKnowledge) (visited : List (Nat × Nat)) :
    RobotState × RobotKnowledge × List (Nat × Nat) × Bool :=
  if st.energy ≤ cfg.low_energy_threshold then
    ({ st with status := RobotStatus.ReturningToStation }, k, [], false)
  else
    let k2 := observeSurroundings k st.x st.y m
    let np := next_position st.x st.y dirOracle m
    if is_valid_move np.1 np.2 m && decide (k2.get_tile np.1 np.2 ≠ TileInfo.Obstacle) then
      (({ st with x := np.1, y := np.2 }.use_energy cfg.movement_energy_cost).1,
        k2, np :: visited, true)
    else (st, k2, visited, false)

/-- Iterated Exploring ticks with an oracle direction per tick; the final
Bool is true when every tick in the run performed a successful move. -/
def runTicks (cfg : RobotTypeConfig) (m : Map) (st : RobotState) (k : RobotKnowledge)
    (visited : List (Nat × Nat)) :
    List Direction → RobotState × RobotKnowledge × List (Nat × Nat) × Bool
  | [] => (st, k, visited, true)
  | d :: ds =>
    let r := explorationTick cfg m d st k visited
    let rest := runTicks cfg m r.1 r.2.1 r.2.2.1 ds
    (rest.1, rest.2.1, rest.2.2.1, r.2.2.2 && rest.2.2.2)

/-- Scenario A configuration: Explorer with low-energy threshold 5 and
movement cost 1 per move (sleep bounds as in EXPLORATION_CONFIG; they pace
the thread only). -/
def scenarioConfig : RobotTypeConfig :=
  { low_energy_threshold := 5
    primary_action_sleep_min_ms := 300
    primary_action_sleep_max_ms := 600
    movement_energy_cost := 1
    action_energy_cost := none }

/-- Scenario A world: an obstacle-free 10x10 grid with the 3x3 station
zone centered at (5, 5) and no resources. -/
def openMap10 : Map :=
  { width := 10
    height := 10
    station_area := [(4, 4), (5, 4), (6, 4), (4, 5), (5, 5), (6, 5), (4, 6), (5, 6), (6, 6)]
    data := fun _ _ => false
    resource_manager := ⟨[]⟩ }

/-- Scenario A agent: one Explorer with energy 20, spawned at (0, 0). -/
def scenarioExplorer : RobotState :=
  { id := 0, x := 0, y := 0, energy := 20, max_energy := 20,
    collected_resources := [], max_capacity := 700,
    status := RobotStatus.Exploring }

/-- Fifteen oracle directions alternating Right/Left from (0, 0); on
openMap10 every one of them is a successful move. -/
def scenarioDirs : List Direction :=
  [Direction.Right, Direction.Left, Direction.Right, Direction.Left, Direction.Right,
   Direction.Left, Direction.Right, Direction.Left, Direction.Right, Direction.Left,
   Direction.Right, Direction.Left, Direction.Right, Direction.Left, Direction.Right]

/-- The horizontal candidate of move_towards_target (src/robot/common.rs
lines 19-25). -/
def try_horizontal (current_x target_x : Nat) : Option Direction :=
  if target_x > current_x then some Direction.Right
  else if target_x < current_x then some Direction.Left
  else none

/-- The vertical candidate of move_towards_target (src/robot/common.rs
lines 27-33). -/
def try_vertical (current_y target_y : Nat) : Option Direction :=
  if target_y > current_y then some Direction.Down
  else if target_y < current_y then some Direction.Up
  else none

/-- The acceptance test of move_towards_target's loops (src/robot/common.rs
lines 46-50 and 58-63): the step must change the position, be a valid
move, and not lead onto a known obstacle. -/
def acceptableStep (cx cy : Nat) (k : RobotKnowledge) (m : Map) (d : Direction) : Bool :=
  let np := next_position cx cy d m
  decide (np ≠ (cx, cy)) && is_valid_move np.1 np.2 m &&
    decide (k.get_tile np.1 np.2 ≠ TileInfo.Obstacle)

/-- The scanning loop of move_towards_target over its candidate list
(src/robot/common.rs lines 44-55): skip None entries, return the first
acceptable direction. -/
def firstAccepted (cx cy : Nat) (k : RobotKnowledge) (m : Map) :
    List (Option Direction) → Option Direction
  | [] => none
  | none :: rest => firstAccepted cx cy k m rest
  | some d :: rest =>
    if acceptableStep cx cy k m d then some d else firstAccepted cx cy k m rest

/-- move_towards_target (src/robot/common.rs lines 6-71): try the
horizontal candidate, the vertical candidate, then Up, Down, Left, Right;
if none is acceptable, try 8 random draws (passed as randOracle); if still
none, return a final random direction (fallbackOracle) unchecked. -/
def move_towards_target (cx cy tx ty : Nat) (k : RobotKnowledge) (m : Map)
    (randOracle : List Direction) (fallbackOracle : Direction) : Direction :=
  let directions_to_try := [try_horizontal cx tx, try_vertical cy ty,
    some Direction.Up, some Direction.Down, some Direction.Left, some Direction.Right]
  match firstAccepted cx cy k m directions_to_try with
  | some d => d
  | none =>
    match firstAccepted cx cy k m ((randOracle.take 8).map some) with
    | some d => d
    | none => fallbackOracle

/-- Modelled from the spec (section 4.2, directed movement), for
comparison with move_towards_target: try the axis with the larger
absolute offset to the target first, then the other axis, then the four
absolute directions, then up to 8 random directions; accept the first
candidate that is in-bounds, not a known obstacle, and changes the
position. -/
def move_towards_target_spec (cx cy tx ty : Nat) (k : RobotKnowledge) (m : Map)
    (randOracle : List Direction) (fallbackOracle : Direction) : Direction :=
  let h := try_horizontal cx tx
  let v := try_vertical cy ty
  let axes := if Nat.dist cy ty > Nat.dist cx tx then [v, h] else [h, v]
  match firstAccepted cx cy k m (axes ++ [some Direction.Up, some Direction.Down,
      some Direction.Left, some Direction.Right]) with
  | some d => d
  | none =>
    match firstAccepted cx cy k m ((randOracle.take 8).map some) with
    | some d => d
    | none => fallbackOracle

/-- Versioned resource report, from ResourceVersion in
src/station/data_manager.rs lines 8-14 (the chrono timestamp is a Nat). -/
structure ResourceVersion where
  amount : Nat
  timestamp : Nat
  robot_id : Nat
  resource_type : ResourceType
deriving DecidableEq, Repr

/-- Station-side tile classification, from GlobalTileInfo in
src/station/data_manager.rs lines 16-23. -/
inductive GlobalTileInfo
  | Unknown
  | Walkable (ts : Nat)
  | Obstacle (ts : Nat)
  | Resource (version : ResourceVersion)
  | Station
deriving DecidableEq, Repr

/-- The coordinator's fused view, from DataManager in
src/station/data_manager.rs lines 25-29. -/
structure DataManager where
  global_knowledge : List ((Nat × Nat) × GlobalTileInfo)
  map_width : Nat
  map_height : Nat
deriving DecidableEq, Repr

/-- One row of DataManager::new's initialization (src/station/data_manager.rs
lines 38-48): Station inside the 3x3 zone around the center (abs_diff at
most 1 on both axes), Unknown elsewhere. -/
def stationGridRow (y w cx cy : Nat) : List ((Nat × Nat) × GlobalTileInfo) :=
  (List.range w).map (fun x =>
    ((x, y),
      if Nat.dist x cx ≤ 1 ∧ Nat.dist y cy ≤ 1 then GlobalTileInfo.Station
      else GlobalTileInfo.Unknown))

/-- DataManager::new (src/station/data_manager.rs lines 32-59). -/
def DataManager.new (width height : Nat) : DataManager :=
  { global_knowledge :=
      (List.range height).foldr
        (fun y acc => stationGridRow y width (width / 2) (height / 2) ++ acc) []
    map_width := width
    map_height := height }

/-- The conflict-resolution decision of DataManager::update_global_tile
(src/station/data_manager.rs lines 114-139), arm for arm in source order;
note there is no (Walkable, Obstacle) or (Obstacle, Walkable) arm, so
those pairs fall to the final catch-all and never update. -/
def shouldUpdate : GlobalTileInfo → GlobalTileInfo → Bool
  | GlobalTileInfo.Station, _ => false
  | _, GlobalTileInfo.Station => true
  | GlobalTileInfo.Unknown, _ => true
  | GlobalTileInfo.Walkable cts, GlobalTileInfo.Walkable nts => decide (nts > cts)
  | GlobalTileInfo.Obstacle cts, GlobalTileInfo.Obstacle nts => decide (nts > cts)
  | GlobalTileInfo.Resource cv, GlobalTileInfo.Resource nv =>
    decide (nv.timestamp > cv.timestamp)
  | GlobalTileInfo.Walkable cts, GlobalTileInfo.Resource nv => decide (nv.timestamp > cts)
  | GlobalTileInfo.Obstacle cts, GlobalTileInfo.Resource nv => decide (nv.timestamp > cts)
  | GlobalTileInfo.Resource cv, GlobalTileInfo.Walkable nts => decide (nts > cv.timestamp)
  | GlobalTileInfo.Resource cv, GlobalTileInfo.Obstacle nts => decide (nts > cv.timestamp)
  | _, _ => false

/-- DataManager::update_global_tile (src/station/data_manager.rs lines
110-160): an occupied entry is replaced only when shouldUpdate says so; a
vacant entry is always inserted. -/
def DataManager.update_global_tile (dm : DataManager) (x y : Nat)
    (new_info : GlobalTileInfo) : DataManager :=
  match alookup (x, y) dm.global_knowledge with
  | some current =>
    if shouldUpdate current new_info then
      { dm with global_knowledge := ainsert (x, y) new_info dm.global_knowledge }
    else dm
  | none => { dm with global_knowledge := ainsert (x, y) new_info dm.global_knowledge }

/-- The TileInfo-to-GlobalTileInfo conversion of
DataManager::merge_robot_knowledge (src/station/data_manager.rs lines
87-101), stamping the merge-wide timestamp now and the reporting robot. -/
def potentialUpdate (robot_id now : Nat) : TileInfo → Option GlobalTileInfo
  | TileInfo.Unknown => none
  | TileInfo.Walkable => some (GlobalTileInfo.Walkable now)
  | TileInfo.Obstacle => some (GlobalTileInfo.Obstacle now)
  | TileInfo.Resource res_type amount =>
    some (GlobalTileInfo.Resource ⟨amount, now, robot_id, res_type⟩)
  | TileInfo.Station => some GlobalTileInfo.Station

/-- The per-tile body of DataManager::merge_robot_knowledge's loop
(src/station/data_manager.rs lines 66-106): skip out-of-bounds reports,
skip non-Station reports for tiles already classified Station, otherwise
convert and fold through update_global_tile. -/
def mergeTile (robot_id now : Nat) (dm : DataManager)
    (entry : (Nat × Nat) × TileInfo) : DataManager :=
  let x := entry.1.1
  let y := entry.1.2
  let robot_tile_info := entry.2
  if x ≥ dm.map_width ∨ y ≥ dm.map_height then dm
  else if alookup (x, y) dm.global_knowledge = some GlobalTileInfo.Station ∧
      robot_tile_info ≠ TileInfo.Station then dm
  else
    match potentialUpdate robot_id now robot_tile_info with
    | some new_info => dm.update_global_tile x y new_info
    | none => dm

/-- DataManager::merge_robot_knowledge (src/station/data_manager.rs lines
63-107): fold every reported tile into the global knowledge; the Rust
captures Utc::now() once per merge, passed here as now. -/
def DataManager.merge_robot_knowledge (dm : DataManager) (robot_id : Nat)
    (knowledge : RobotKnowledge) (now : Nat) : DataManager :=
  knowledge.map.foldl (mergeTile robot_id now) dm

/-- DataManager::get_global_robot_knowledge (src/station/data_manager.rs
lines 163-178): serialize the fused view into an AgentKnowledge-shaped
snapshot. -/
def DataManager.get_global_robot_knowledge (dm : DataManager) : RobotKnowledge :=
  dm.global_knowledge.foldl
    (fun rk entry =>
      rk.update_tile entry.1.1 entry.1.2
        (match entry.2 with
        | GlobalTileInfo.Unknown => TileInfo.Unknown
        | GlobalTileInfo.Walkable _ => TileInfo.Walkable
        | GlobalTileInfo.Obstacle _ => TileInfo.Obstacle
        | GlobalTileInfo.Resource v => TileInfo.Resource v.resource_type v.amount
        | GlobalTileInfo.Station => TileInfo.Station))
    (RobotKnowledge.new dm.map_width dm.map_height)

/-- Timestamp carried by a concrete (Walkable/Obstacle/Resource) global
entry. -/
def tsOf : GlobalTileInfo → Option Nat
  | GlobalTileInfo.Walkable ts => some ts
  | GlobalTileInfo.Obstacle ts => some ts
  | GlobalTileInfo.Resource v => some v.timestamp
  | _ => none

/-- Station-side fused view used as witness input: (2, 2) already recorded
as Obstacle at timestamp 5. -/
def witnessDM : DataManager :=
  { global_knowledge := [((2, 2), GlobalTileInfo.Obstacle 5)]
    map_width := 10
    map_height := 10 }

/-- Outcome of the merge_complete_receiver.recv_timeout(MERGE_TIMEOUT)
call in the robot loops: a MergeComplete reply, some other event on the
reply channel, a timeout, or a channel disconnection. -/
inductive MergeReplyOutcome
  | mergeComplete (merged_knowledge : RobotKnowledge)
  | otherEvent
  | timeout
  | disconnected
deriving DecidableEq, Repr

/-- The reply-wait match of ExplorationRobot::start
(src/robot/exploration.rs lines 164-190). Some (state, knowledge) means
the loop continues with that state; none embeds the break that exits the
thread loop (after which the thread emits Shutdown,
src/robot/exploration.rs lines 281-290). On MergeComplete the knowledge
is replaced and energy refilled to max (the visited set is cleared by the
caller); on an unexpected event or a timeout the robot resumes Exploring
with its stale knowledge; on disconnection the loop breaks. -/
def explorationHandleReply (st : RobotState) (k : RobotKnowledge)
    (outcome : MergeReplyOutcome) : Option (RobotState × RobotKnowledge) :=
  match outcome with
  | MergeReplyOutcome.mergeComplete merged =>
    some ({ st with energy := st.max_energy, status := RobotStatus.Exploring }, merged)
  | MergeReplyOutcome.otherEvent =>
    some ({ st with status := RobotStatus.Exploring }, k)
  | MergeReplyOutcome.timeout =>
    some ({ st with status := RobotStatus.Exploring }, k)
  | MergeReplyOutcome.disconnected => none

/-- The reply-wait match of CollectionRobot::start
(src/robot/collection.rs lines 373-399), same shape as the exploration
one; on MergeComplete energy is set to config::RECHARGE_ENERGY (a constant
whose defining line is not part of this source snapshot, passed here as
recharge_energy; the claims do not depend on its value) and the cargo is
cleared. -/
def collectionHandleReply (recharge_energy : Nat) (st : RobotState) (k : RobotKnowledge)
    (outcome : MergeReplyOutcome) : Option (RobotState × RobotKnowledge) :=
  match outcome with
  | MergeReplyOutcome.mergeComplete merged =>
    some
      ({ st with
          energy := recharge_energy
          collected_resources := []
          status := RobotStatus.Collecting },
        merged)
  | MergeReplyOutcome.otherEvent =>
    some ({ st with status := RobotStatus.Collecting }, k)
  | MergeReplyOutcome.timeout =>
    some ({ st with status := RobotStatus.Collecting }, k)
  | MergeReplyOutcome.disconnected => none

/-- Events on the channels, from RobotEvent in
src/communication/channels.rs lines 12-54. The Shutdown reason string and
the ScienceData module-name list carry no routing or state logic and are
dropped here. -/
inductive RobotEvent
  | ExplorationData (id : Nat) (x y : Nat) (is_obstacle : Bool)
  | CollectionData (id : Nat) (x y : Nat) (resource_type : Option ResourceType) (amount : Nat)
  | ScienceData (id : Nat) (x y : Nat) (resource_type : ResourceType) (amount : Nat)
  | LowEnergy (id : Nat) (remaining : Nat)
  | ReturnToBase (id : Nat)
  | ArrivedAtStation (id : Nat) (knowledge : RobotKnowledge)
  | MergeComplete (id : Nat) (merged_knowledge : RobotKnowledge)
  | Shutdown (id : Nat)
deriving DecidableEq, Repr

/-- Send destinations in App::new's wiring (src/app.rs lines 55-58 and
176-178): the single shared main event bus, whose sender clone is what
the Station is constructed with, or one of the dedicated per-robot merge
channels stored in robot_merge_senders and whose receiving ends are the
robots' merge_complete_receiver. -/
inductive Chan
  | bus
  | mergeChannel (id : Nat)
deriving DecidableEq, Repr

/-- Station::process_event (src/station/station.rs lines 25-50): on
ArrivedAtStation the station merges the reported knowledge, serializes
the fused view and sends MergeComplete{id, snapshot} on its event_sender;
by App::new line 58 that sender is a clone of the shared main bus sender,
so the send destination is Chan.bus. Every other event is ignored. The
result lists every (destination, event) send the call performs. -/
def Station.process_event (dm : DataManager) (now : Nat) (ev : RobotEvent) :
    DataManager × List (Chan × RobotEvent) :=
  match ev with
  | RobotEvent.ArrivedAtStation id knowledge =>
    let dm2 := dm.merge_robot_knowledge id knowledge now
    (dm2, [(Chan.bus, RobotEvent.MergeComplete id dm2.get_global_robot_knowledge)])
  | _ => (dm, [])

/-- In-place value update in an association list; embeds mutating a
HashMap entry through get_mut. -/
def amodify {κ α : Type} [DecidableEq κ] (k : κ) (f : α → α) : List (κ × α) → List (κ × α)
  | [] => []
  | (k2, v) :: rest => if k2 = k then (k2, f v) :: rest else (k2, v) :: amodify k f rest

/-- The simulation loop's bookkeeping, from App in src/app.rs lines 19-33:
the three per-role bookkeeping maps, the ids holding a dedicated merge
sender, and the aggregate counters. -/
structure AppState where
  exploration_robots : List (Nat × RobotState)
  collection_robots : List (Nat × RobotState)
  scientific_robots : List (Nat × RobotState)
  robot_merge_senders : List Nat
  collected_resources : List (ResourceType × Nat)
  scientific_data : Nat
deriving DecidableEq, Repr

/-- App::get_robot_state_mut (src/app.rs lines 353-361) applied as an
update: try the exploration map, then collection, then scientific. -/
def AppState.update_robot (app : AppState) (id : Nat) (f : RobotState → RobotState) :
    AppState :=
  if (alookup id app.exploration_robots).isSome then
    { app with exploration_robots := amodify id f app.exploration_robots }
  else if (alookup id app.collection_robots).isSome then
    { app with collection_robots := amodify id f app.collection_robots }
  else
    { app with scientific_robots := amodify id f app.scientific_robots }

/-- The per-event match of App::update (src/app.rs lines 253-348),
handling one event drained from the shared bus; recharge_energy stands
for config::RECHARGE_ENERGY (its defining line is not part of this
snapshot; no claim depends on its value). The second component lists
every (destination, event) send the arm performs - every arm of the Rust
match only mutates bookkeeping and sends nothing, so it is [] throughout;
in particular the MergeComplete arm (lines 295-327) resets the
bookkeeping energy and cargo and restores the role's Active status but
never forwards the event to robot_merge_senders[id]. -/
def appHandleEvent (recharge_energy : Nat) (app : AppState) (ev : RobotEvent) :
    AppState × List (Chan × RobotEvent) :=
  match ev with
  | RobotEvent.ExplorationData id x y _ =>
    (app.update_robot id (fun r => { r with x := x, y := y }), [])
  | RobotEvent.CollectionData id x y resource_type amount =>
    let app2 := app.update_robot id (fun r => { r with x := x, y := y })
    let app3 :=
      match resource_type with
      | some res_type =>
        if amount > 0 then
          { app2 with
              collected_resources := bumpEntry res_type amount app2.collected_resources }
        else app2
      | none => app2
    (app3, [])
  | RobotEvent.ScienceData id x y _ amount =>
    let app2 := app.update_robot id (fun r => { r with x := x, y := y })
    ({ app2 with scientific_data := app2.scientific_data + amount }, [])
  | RobotEvent.LowEnergy id remaining =>
    (app.update_robot id (fun r => { r with energy := remaining }), [])
  | RobotEvent.MergeComplete id _ =>
    let newStatus :=
      if (alookup id app.exploration_robots).isSome then some RobotStatus.Exploring
      else if (alookup id app.collection_robots).isSome then some RobotStatus.Collecting
      else if (alookup id app.scientific_robots).isSome then some RobotStatus.Analyzing
      else none
    (app.update_robot id (fun r =>
      { r with
          energy := recharge_energy
          collected_resources := []
          status := newStatus.getD r.status }), [])
  | RobotEvent.ArrivedAtStation id _ =>
    (app.update_robot id (fun r => { r with status := RobotStatus.AtStation }), [])
  | RobotEvent.Shutdown id =>
    ({ app with
        exploration_robots := aerase id app.exploration_robots
        collection_robots := aerase id app.collection_robots
        scientific_robots := aerase id app.scientific_robots
        robot_merge_senders := app.robot_merge_senders.filter (fun i => decide (i ≠ id)) }, [])
  | RobotEvent.ReturnToBase id =>
    (app.update_robot id (fun r => { r with status := RobotStatus.ReturningToStation }), [])

/-- Bookkeeping with a single exploration robot of id 42, holding its
dedicated merge channel, as App::spawn_robot_instance sets up. -/
def app42 : AppState :=
  { exploration_robots := [(42, scenarioExplorer)]
    collection_robots := []
    scientific_robots := []
    robot_merge_senders := [42]
    collected_resources := []
    scientific_data := 0 }

/-- The random-fallback loop of the ReturningToStation arm
(src/robot/exploration.rs lines 229-251): up to four random draws, moving
on the first one that is a valid move onto a tile not known as an
obstacle. -/
def tryRandomMoves (cfg : RobotTypeConfig) (m : Map) (st : RobotState)
    (k : RobotKnowledge) : List Direction → RobotState × Bool
  | [] => (st, false)
  | d :: rest =>
    let np := next_position st.x st.y d m
    if is_valid_move np.1 np.2 m && decide (k.get_tile np.1 np.2 ≠ TileInfo.Obstacle) then
      (({ st with x := np.1, y := np.2 }.use_energy cfg.movement_energy_cost).1, true)
    else tryRandomMoves cfg m st k rest

/-- The movement part of the ReturningToStation arm of
ExplorationRobot::start (src/robot/exploration.rs lines 195-259,
structurally identical in src/robot/collection.rs lines 404-473): head
toward the station with move_towards_target, move if the step is valid
and not onto a known obstacle, otherwise try up to four random draws
(rand4); random choices are oracle parameters. -/
def returningMoveStep (cfg : RobotTypeConfig) (m : Map) (station_x station_y : Nat)
    (randOracle : List Direction) (fallbackOracle : Direction) (rand4 : List Direction)
    (st : RobotState) (k : RobotKnowledge) : RobotState × Bool :=
  let direction :=
    move_towards_target st.x st.y station_x station_y k m randOracle fallbackOracle
  let np := next_position st.x st.y direction m
  if is_valid_move np.1 np.2 m && decide (k.get_tile np.1 np.2 ≠ TileInfo.Obstacle) then
    (({ st with x := np.1, y := np.2 }.use_energy cfg.movement_energy_cost).1, true)
  else tryRandomMoves cfg m st k (rand4.take 4)

theorem alookup_aerase_self {κ α : Type} [DecidableEq κ] (k : κ) (l : List (κ × α)) :
    alookup k (aerase k l) = none := by
  induction l with
  | nil => rfl
  | cons p rest ih =>
    obtain ⟨k2, v⟩ := p
    by_cases h : k2 = k
    · simp [aerase, h, ih]
    · simp [aerase, alookup, h, ih]

theorem alookup_aerase_ne {κ α : Type} [DecidableEq κ] {k k2 : κ} (h : k ≠ k2)
    (l : List (κ × α)) : alookup k (aerase k2 l) = alookup k l := by
  induction l with
  | nil => rfl
  | cons p rest ih =>
    obtain ⟨k3, v⟩ := p
    have h2 : k2 ≠ k := fun hh => h hh.symm
    by_cases h3 : k3 = k2
    · subst h3
      simp [aerase, alookup, h2, ih]
    · by_cases hk : k3 = k
      · simp [aerase, alookup, h3, hk, h]
      · simp [aerase, alookup, h3, hk, ih]

theorem alookup_ainsert_self {κ α : Type} [DecidableEq κ] (k : κ) (v : α)
    (l : List (κ × α)) : alookup k (ainsert k v l) = some v := by
  simp [ainsert, alookup]

theorem alookup_ainsert_ne {κ α : Type} [DecidableEq κ] {k k2 : κ} (h : k ≠ k2) (v : α)
    (l : List (κ × α)) : alookup k (ainsert k2 v l) = alookup k l := by
  have h2 : k2 ≠ k := fun hh => h hh.symm
  simp [ainsert, alookup, h2, alookup_aerase_ne h l]

theorem alookup_append {κ α : Type} [DecidableEq κ] (k : κ) (l1 l2 : List (κ × α)) :
    alookup k (l1 ++ l2) =
      match alookup k l1 with
      | some v => some v
      | none => alookup k l2 := by
  induction l1 with
  | nil => simp [alookup]
  | cons p rest ih =>
    obtain ⟨k2, v⟩ := p
    by_cases h : k2 = k
    · simp [alookup, h]
    · simp [alookup, h, ih]

theorem alookup_gridRow (x y y2 w : Nat) :
    alookup (x, y2) (gridRow y w) =
      if y2 = y ∧ x < w then some TileInfo.Unknown else none := by
  induction w with
  | zero => simp [gridRow, alookup]
  | succ n ih =>
    rw [gridRow, List.range_succ, List.map_append]
    rw [show (List.range n).map (fun x => ((x, y), TileInfo.Unknown)) = gridRow y n from rfl]
    rw [alookup_append, ih]
    simp only [List.map_cons, List.map_nil, alookup]
    by_cases hy : y2 = y
    · subst hy
      by_cases hx : x < n
      · simp [hx, Nat.lt_succ_of_lt hx]
      · by_cases hxe : x = n
        · subst hxe
          simp [hx, Nat.lt_succ_self]
        · have hlt : ¬ x < n + 1 := by omega
          have hne : ((n : Nat), y2) ≠ (x, y2) := by
            intro h
            exact hxe (congrArg Prod.fst h).symm
          simp [hx, hlt, hne, alookup]
    · have hne : ((n : Nat), y) ≠ (x, y2) := by
        intro h
        exact hy (congrArg Prod.snd h).symm
      simp [hy, hne, alookup]

theorem foldr_rows_append (w : Nat) (l : List Nat) (init : List ((Nat × Nat) × TileInfo)) :
    l.foldr (fun y acc => gridRow y w ++ acc) init
      = l.foldr (fun y acc => gridRow y w ++ acc) [] ++ init := by
  induction l with
  | nil => simp
  | cons a rest ih => simp [ih, List.append_assoc]

theorem alookup_gridInit (x y w h : Nat) :
    alookup (x, y) (gridInit w h) =
      if x < w ∧ y < h then some TileInfo.Unknown else none := by
  induction h with
  | zero => simp [gridInit, alookup]
  | succ n ih =>
    rw [gridInit, List.range_succ, List.foldr_append]
    simp only [List.foldr_cons, List.foldr_nil]
    rw [foldr_rows_append]
    rw [show ((List.range n).foldr (fun y acc => gridRow y w ++ acc) []) = gridInit w n from rfl]
    rw [alookup_append, ih, alookup_append, alookup_gridRow]
    by_cases hx : x < w
    · by_cases hy : y < n
      · simp [hx, hy, Nat.lt_succ_of_lt hy]
      · by_cases hye : y = n
        · subst hye
          simp [hx, hy, Nat.lt_succ_self]
        · have hlt : ¬ y < n + 1 := by omega
          simp [hx, hy, hye, hlt, alookup]
    · simp [hx, alookup]

/-- Claim C9 (counterexample): the claim says every tile of the 3x3 station
zone centered at (w/2, h/2) is initialized to Station in a fresh
AgentKnowledge. At w = h = 10 the coordinate (4, 5) lies in that zone
(both axis distances to the center (5, 5) are at most 1), yet
RobotKnowledge::new leaves it Unknown: only the single center tile is set
to Station. -/
theorem C9_counterexample :
    (Nat.dist 4 (10 / 2) ≤ 1 ∧ Nat.dist 5 (10 / 2) ≤ 1) ∧
      (RobotKnowledge.new 10 10).get_tile 4 5 = TileInfo.Unknown ∧
      TileInfo.Unknown ≠ TileInfo.Station := by
  refine ⟨by decide, ?_, by decide⟩
  decide

/-- Claim C9 (amended): a freshly constructed AgentKnowledge of width w and
height h maps every coordinate of the full w x h grid; the single center
tile (w/2, h/2) is initialized to Station and every other in-bounds tile
to Unknown. -/
theorem C9_fresh_knowledge_center_station (w h x y : Nat) (hx : x < w) (hy : y < h) :
    alookup (x, y) (RobotKnowledge.new w h).map =
      some (if (x, y) = (w / 2, h / 2) then TileInfo.Station else TileInfo.Unknown) := by
  unfold RobotKnowledge.new
  by_cases hc : (x, y) = (w / 2, h / 2)
  · rw [hc]
    simp [alookup_ainsert_self]
  · rw [alookup_ainsert_ne hc, alookup_gridInit]
    simp [hx, hy, hc]

/-- Claim C9 witness: the amended theorem evaluated at the fresh 10 x 10
knowledge and coordinate (4, 5). -/
theorem C9_witness :
    alookup (4, 5) (RobotKnowledge.new 10 10).map =
      some (if ((4 : Nat), (5 : Nat)) = (10 / 2, 10 / 2) then TileInfo.Station
        else TileInfo.Unknown) :=
  C9_fresh_knowledge_center_station 10 10 4 5 (by decide) (by decide)

/-- Claim C5: Map::remove_resource returns Some of the prior (type, amount)
exactly when a resource is present (None otherwise); afterwards the entry
is gone exactly when the type is consumable (Energy or Minerals), while a
SciencePoints entry stays unchanged; when nothing is present the map is
untouched. -/
theorem C5_remove_resource (m : Map) (x y : Nat) :
    (m.remove_resource x y).2 = m.get_resource x y ∧
    (∀ t a, m.get_resource x y = some (t, a) →
      ((m.remove_resource x y).1).get_resource x y =
        if t = ResourceType.SciencePoints then some (t, a) else none) ∧
    (m.get_resource x y = none → (m.remove_resource x y).1 = m) := by
  cases hr : m.resource_manager.get_resource x y with
  | none =>
    refine ⟨?_, ?_, ?_⟩
    · simp [Map.remove_resource, Map.get_resource, hr]
    · intro t a ht
      simp [Map.get_resource, hr] at ht
    · intro h
      simp [Map.remove_resource, hr]
  | some r =>
    obtain ⟨rt, ra⟩ := r
    refine ⟨?_, ?_, ?_⟩
    · simp [Map.remove_resource, Map.get_resource, hr]
    · intro t a ht
      have hts : rt = t ∧ ra = a := by
        simp [Map.get_resource, hr] at ht
        exact ht
      obtain ⟨h1, h2⟩ := hts
      subst h1
      subst h2
      have hr2 : alookup (x, y) m.resource_manager.resources =
          some ⟨rt, ra⟩ := hr
      cases rt with
      | Energy =>
        simp [Map.remove_resource, hr, hr2, ResourceType.is_consumable, Map.get_resource,
          ResourceManager.get_resource, ResourceManager.remove_resource,
          alookup_aerase_self]
      | Minerals =>
        simp [Map.remove_resource, hr, hr2, ResourceType.is_consumable, Map.get_resource,
          ResourceManager.get_resource, ResourceManager.remove_resource,
          alookup_aerase_self]
      | SciencePoints =>
        simp [Map.remove_resource, hr, hr2, ResourceType.is_consumable, Map.get_resource]
    · intro h
      simp [Map.get_resource, hr] at h

/-- Claim C5 witness: the theorem applied to witnessMap at the consumable
Minerals deposit (deleted) and at the SciencePoints deposit (left
unchanged). -/
theorem C5_witness :
    (witnessMap.remove_resource 1 2).1.get_resource 1 2 =
      (if ResourceType.Minerals = ResourceType.SciencePoints
        then some (ResourceType.Minerals, 100) else none) ∧
    (witnessMap.remove_resource 3 3).1.get_resource 3 3 =
      (if ResourceType.SciencePoints = ResourceType.SciencePoints
        then some (ResourceType.SciencePoints, 4) else none) :=
  ⟨(C5_remove_resource witnessMap 1 2).2.1 ResourceType.Minerals 100 (by decide),
   (C5_remove_resource witnessMap 3 3).2.1 ResourceType.SciencePoints 4 (by decide)⟩

theorem cargoTotal_bumpEntry (t : ResourceType) (a : Nat) (l : List (ResourceType × Nat)) :
    cargoTotal (bumpEntry t a l) = cargoTotal l + a := by
  induction l with
  | nil => simp [bumpEntry, cargoTotal]
  | cons p rest ih =>
    obtain ⟨t2, v⟩ := p
    by_cases h : t2 = t
    · simp [bumpEntry, h, cargoTotal]
      omega
    · simp [bumpEntry, h, cargoTotal] at *
      omega

/-- Claim C4: the carried total never exceeds max_capacity (collect_resource
preserves the capacity invariant); collect_resource succeeds exactly when
the carried total plus the offered amount fits; a failed call leaves the
state untouched; and a collection attempt whose cargo update fails leaves
both the cargo and the grid resource untouched. -/
theorem C4_capacity_all_or_nothing (st : RobotState) (t : ResourceType) (a : Nat) (m : Map) :
    (cargoTotal st.collected_resources ≤ st.max_capacity →
      cargoTotal (st.collect_resource t a).1.collected_resources ≤ st.max_capacity) ∧
    ((st.collect_resource t a).2 = true ↔
      cargoTotal st.collected_resources + a ≤ st.max_capacity) ∧
    ((st.collect_resource t a).2 = false → (st.collect_resource t a).1 = st) ∧
    (m.get_resource st.x st.y = some (t, a) → 0 < a →
      st.max_capacity < cargoTotal st.collected_resources + a →
      collectionAttempt st t m = (st, m, false, 0)) := by
  refine ⟨?_, ?_, ?_, ?_⟩
  · intro hle
    by_cases h : cargoTotal st.collected_resources + a ≤ st.max_capacity
    · simp [RobotState.collect_resource, h, cargoTotal_bumpEntry]
    · simp [RobotState.collect_resource, h, hle]
  · by_cases h : cargoTotal st.collected_resources + a ≤ st.max_capacity
    · simp [RobotState.collect_resource, h]
    · simp [RobotState.collect_resource, h]
  · intro hfail
    by_cases h : cargoTotal st.collected_resources + a ≤ st.max_capacity
    · simp [RobotState.collect_resource, h] at hfail
    · simp [RobotState.collect_resource, h]
  · intro hres hpos hover
    have hfail : ¬ (cargoTotal st.collected_resources + a ≤ st.max_capacity) := by omega
    simp [collectionAttempt, hres, hpos, RobotState.collect_resource, hfail]

/-- Claim C4 witness: Scenario B of the spec. The collector with
max_capacity 50 standing on witnessMap's 100-Minerals tile fails the
attempt outright: cargo stays empty and the grid still holds the
100 Minerals. -/
theorem C4_witness :
    collectionAttempt witnessCollector ResourceType.Minerals witnessMap =
      (witnessCollector, witnessMap, false, 0) :=
  (C4_capacity_all_or_nothing witnessCollector ResourceType.Minerals 100
    witnessMap).2.2.2 (by decide) (by decide) (by decide)

theorem use_energy_keeps_position (st : RobotState) (a : Nat) :
    (st.use_energy a).1.x = st.x ∧ (st.use_energy a).1.y = st.y ∧
    (st.use_energy a).1.status = st.status := by
  unfold RobotState.use_energy
  split <;> simp

/-- Claim C7: whenever energy is at or below the role's low-energy
threshold at the start of an Active (Exploring) tick, that tick sets the
status to ReturningToStation; and in Scenario A (energy 20, threshold 5,
movement cost 1) fifteen successful moves leave energy at exactly 5 and
still Exploring, and the next tick transitions to ReturningToStation. -/
theorem C7_low_energy_returns_to_station :
    (∀ (cfg : RobotTypeConfig) (m : Map) (dir : Direction) (st : RobotState)
        (k : RobotKnowledge) (v : List (Nat × Nat)),
      st.energy ≤ cfg.low_energy_threshold →
      (explorationTick cfg m dir st k v).1.status = RobotStatus.ReturningToStation) ∧
    ((runTicks scenarioConfig openMap10 scenarioExplorer (RobotKnowledge.new 10 10) []
        scenarioDirs).2.2.2 = true ∧
      (runTicks scenarioConfig openMap10 scenarioExplorer (RobotKnowledge.new 10 10) []
        scenarioDirs).1.energy = 5 ∧
      (runTicks scenarioConfig openMap10 scenarioExplorer (RobotKnowledge.new 10 10) []
        scenarioDirs).1.status = RobotStatus.Exploring ∧
      (explorationTick scenarioConfig openMap10 Direction.Right
        (runTicks scenarioConfig openMap10 scenarioExplorer (RobotKnowledge.new 10 10) []
          scenarioDirs).1
        (runTicks scenarioConfig openMap10 scenarioExplorer (RobotKnowledge.new 10 10) []
          scenarioDirs).2.1
        (runTicks scenarioConfig openMap10 scenarioExplorer (RobotKnowledge.new 10 10) []
          scenarioDirs).2.2.1).1.status = RobotStatus.ReturningToStation) := by
  constructor
  · intro cfg m dir st k v hE
    unfold explorationTick
    simp [hE]
  · refine ⟨?_, ?_, ?_, ?_⟩ <;> decide

/-- Claim C7 witness: the general transition applied at a concrete
low-energy Explorer state. -/
theorem C7_witness :
    (explorationTick scenarioConfig openMap10 Direction.Up
      { scenarioExplorer with energy := 5 } (RobotKnowledge.new 10 10) []).1.status =
      RobotStatus.ReturningToStation :=
  C7_low_energy_returns_to_station.1 scenarioConfig openMap10 Direction.Up
    { scenarioExplorer with energy := 5 } (RobotKnowledge.new 10 10) [] (by decide)

/-- Claim C8 (counterexample): from (0, 0) toward (1, 5) on the open 10x10
map with fresh knowledge, the vertical offset (5) is strictly larger than
the horizontal one (1), so the claimed order would move Down; the code
always tries the horizontal candidate first and moves Right. -/
theorem C8_counterexample :
    move_towards_target 0 0 1 5 (RobotKnowledge.new 10 10) openMap10 [] Direction.Up =
      Direction.Right ∧
    move_towards_target_spec 0 0 1 5 (RobotKnowledge.new 10 10) openMap10 [] Direction.Up =
      Direction.Down ∧
    Direction.Right ≠ Direction.Down := by
  refine ⟨?_, ?_, by decide⟩ <;> decide

theorem firstAccepted_eq_find (cx cy : Nat) (k : RobotKnowledge) (m : Map)
    (l : List (Option Direction)) :
    firstAccepted cx cy k m l = (l.filterMap id).find? (acceptableStep cx cy k m) := by
  induction l with
  | nil => rfl
  | cons o rest ih =>
    cases o with
    | none => simp [firstAccepted, ih]
    | some d =>
      by_cases h : acceptableStep cx cy k m d
      · simp [firstAccepted, h, List.find?]
      · have hcons : (some d :: rest).filterMap id = d :: rest.filterMap id := by simp
        simp only [firstAccepted]
        rw [if_neg h, hcons, List.find?_cons_of_neg _ (by simp [h]), ih]

/-- Claim C8 (amended): move_towards_target returns the first acceptable
candidate (position changes, in-bounds, not a known obstacle) of the list
horizontal-axis candidate, vertical-axis candidate, Up, Down, Left, Right
(the horizontal candidate always first, regardless of which offset is
larger); if none is acceptable, the first acceptable of the up-to-8 random
draws; and if still none, the final unchecked random direction. -/
theorem C8_directed_movement_order (cx cy tx ty : Nat) (k : RobotKnowledge) (m : Map)
    (randOracle : List Direction) (fallbackOracle : Direction) :
    move_towards_target cx cy tx ty k m randOracle fallbackOracle =
      ((([try_horizontal cx tx, try_vertical cy ty, some Direction.Up, some Direction.Down,
          some Direction.Left, some Direction.Right].filterMap id).find?
            (acceptableStep cx cy k m)).getD
        (((randOracle.take 8).find? (acceptableStep cx cy k m)).getD fallbackOracle)) := by
  unfold move_towards_target
  dsimp only
  rw [firstAccepted_eq_find, firstAccepted_eq_find]
  have hmap : ∀ l : List Direction, List.filterMap id (List.map some l) = l := by
    intro l
    induction l with
    | nil => rfl
    | cons a t ih => simp [ih]
  rw [hmap]
  cases ([try_horizontal cx tx, try_vertical cy ty, some Direction.Up, some Direction.Down,
      some Direction.Left, some Direction.Right].filterMap id).find?
      (acceptableStep cx cy k m) with
  | none =>
    cases (randOracle.take 8).find? (acceptableStep cx cy k m) with
    | none => rfl
    | some d => rfl
  | some d => rfl

/-- Claim C2 (code evaluation at the failing input, Scenario D): on a fresh
10x10 DataManager, robot 1 reports (2, 2) as Obstacle at timestamp 1 and
robot 2 then reports (2, 2) as Walkable at the strictly newer timestamp 2;
the fused view still shows Obstacle, because shouldUpdate has no
(Obstacle, Walkable) arm and the pair falls to the catch-all false,
contradicting the claimed last-write-wins rule. -/
theorem C2_obstacle_walkable_failing_input :
    alookup (2, 2)
      (((DataManager.new 10 10).merge_robot_knowledge 1
          { map := [((2, 2), TileInfo.Obstacle)], width := 10, height := 10 } 1).merge_robot_knowledge 2
        { map := [((2, 2), TileInfo.Walkable)], width := 10, height := 10 } 2).global_knowledge =
      some (GlobalTileInfo.Obstacle 1) ∧
    (((DataManager.new 10 10).merge_robot_knowledge 1
          { map := [((2, 2), TileInfo.Obstacle)], width := 10, height := 10 } 1).merge_robot_knowledge 2
        { map := [((2, 2), TileInfo.Walkable)], width := 10, height := 10 } 2).get_global_robot_knowledge.get_tile 2 2 =
      TileInfo.Obstacle ∧
    shouldUpdate (GlobalTileInfo.Obstacle 1) (GlobalTileInfo.Walkable 2) = false ∧
    TileInfo.Obstacle ≠ TileInfo.Walkable := by
  refine ⟨?_, ?_, ?_, ?_⟩ <;> decide

/-- Claim C3: merge monotonicity. Once the global knowledge holds a
timestamped entry with timestamp T at a coordinate, update_global_tile
with any timestamped candidate whose timestamp is at most T (ties
included) leaves the entry unchanged; and a Station-classified entry is
never replaced by any candidate. -/
theorem C3_merge_monotonicity (dm : DataManager) (x y : Nat) (cand : GlobalTileInfo) :
    (∀ current T t, alookup (x, y) dm.global_knowledge = some current →
      tsOf current = some T → tsOf cand = some t → t ≤ T →
      alookup (x, y) (dm.update_global_tile x y cand).global_knowledge = some current) ∧
    (alookup (x, y) dm.global_knowledge = some GlobalTileInfo.Station →
      alookup (x, y) (dm.update_global_tile x y cand).global_knowledge =
        some GlobalTileInfo.Station) := by
  constructor
  · intro current T t hcur hT ht hle
    have hsu : shouldUpdate current cand = false := by
      cases current with
      | Unknown => simp [tsOf] at hT
      | Station => simp [tsOf] at hT
      | Walkable cts =>
        simp only [tsOf, Option.some.injEq] at hT
        subst hT
        cases cand with
        | Unknown => simp [tsOf] at ht
        | Station => simp [tsOf] at ht
        | Walkable nts =>
          simp only [tsOf, Option.some.injEq] at ht
          subst ht
          simp [shouldUpdate]
          omega
        | Obstacle nts => rfl
        | Resource nv =>
          simp only [tsOf, Option.some.injEq] at ht
          simp [shouldUpdate]
          omega
      | Obstacle cts =>
        simp only [tsOf, Option.some.injEq] at hT
        subst hT
        cases cand with
        | Unknown => simp [tsOf] at ht
        | Station => simp [tsOf] at ht
        | Obstacle nts =>
          simp only [tsOf, Option.some.injEq] at ht
          subst ht
          simp [shouldUpdate]
          omega
        | Walkable nts => rfl
        | Resource nv =>
          simp only [tsOf, Option.some.injEq] at ht
          simp [shouldUpdate]
          omega
      | Resource cv =>
        simp only [tsOf, Option.some.injEq] at hT
        cases cand with
        | Unknown => simp [tsOf] at ht
        | Station => simp [tsOf] at ht
        | Walkable nts =>
          simp only [tsOf, Option.some.injEq] at ht
          simp [shouldUpdate]
          omega
        | Obstacle nts =>
          simp only [tsOf, Option.some.injEq] at ht
          simp [shouldUpdate]
          omega
        | Resource nv =>
          simp only [tsOf, Option.some.injEq] at ht
          simp [shouldUpdate]
          omega
    unfold DataManager.update_global_tile
    rw [hcur]
    simp [hsu, hcur]
  · intro hcur
    unfold DataManager.update_global_tile
    rw [hcur]
    simp [shouldUpdate, hcur]

/-- Claim C3 witness: a Walkable candidate with the tied timestamp 5 does
not displace the Obstacle entry recorded at timestamp 5. -/
theorem C3_witness :
    alookup (2, 2)
      ((witnessDM.update_global_tile 2 2 (GlobalTileInfo.Walkable 5)).global_knowledge) =
      some (GlobalTileInfo.Obstacle 5) :=
  (C3_merge_monotonicity witnessDM 2 2 (GlobalTileInfo.Walkable 5)).1
    (GlobalTileInfo.Obstacle 5) 5 5 (by decide) (by decide) (by decide) (by decide)

/-- Claim C6 (counterexample): the claim says a reply-channel
disconnection, like a timeout, sends the agent back to its Active state.
At a concrete waiting agent, both robot loops return none on
disconnected - the loop breaks and the thread shuts down - so there is no
continuation state at all, let alone an Active one. -/
theorem C6_counterexample :
    explorationHandleReply { scenarioExplorer with status := RobotStatus.AtStation }
      (RobotKnowledge.new 10 10) MergeReplyOutcome.disconnected = none ∧
    collectionHandleReply 500 { witnessCollector with status := RobotStatus.AtStation }
      (RobotKnowledge.new 10 10) MergeReplyOutcome.disconnected = none ∧
    (explorationHandleReply { scenarioExplorer with status := RobotStatus.AtStation }
      (RobotKnowledge.new 10 10) MergeReplyOutcome.disconnected).isSome = false := by
  refine ⟨rfl, rfl, rfl⟩

/-- Claim C6 (amended): on a reply timeout (or an unexpected event on the
reply channel) the agent resumes its Active role state with its
unreplaced stale knowledge; on a reply-channel disconnection the agent
does not resume - its loop breaks and the task terminates via the
Shutdown path. -/
theorem C6_timeout_resumes_disconnection_terminates (st : RobotState)
    (k : RobotKnowledge) (recharge_energy : Nat) :
    explorationHandleReply st k MergeReplyOutcome.timeout =
      some ({ st with status := RobotStatus.Exploring }, k) ∧
    collectionHandleReply recharge_energy st k MergeReplyOutcome.timeout =
      some ({ st with status := RobotStatus.Collecting }, k) ∧
    explorationHandleReply st k MergeReplyOutcome.disconnected = none ∧
    collectionHandleReply recharge_energy st k MergeReplyOutcome.disconnected = none :=
  ⟨rfl, rfl, rfl, rfl⟩

/-- Claim C1 (code evaluation at the failing input): when robot 42 docks,
the station's MergeComplete reply goes out on the shared main event bus
(the only channel the Station holds a sender for), not on robot 42's
dedicated merge channel; and when the simulation loop then drains that
MergeComplete from the bus, it performs no send at all - in particular it
never forwards the reply to robot_merge_senders[42] - so the agent's
merge_complete_receiver never receives it. The last two conjuncts state
this for every input: no send of the station or of the app-loop ever
targets a mergeChannel destination. -/
theorem C1_merge_reply_goes_to_shared_bus :
    (Station.process_event (DataManager.new 3 3) 7
        (RobotEvent.ArrivedAtStation 42 (RobotKnowledge.new 3 3))).2.map Prod.fst =
      [Chan.bus] ∧
    (appHandleEvent 500 app42
        (RobotEvent.MergeComplete 42 (RobotKnowledge.new 3 3))).2 = [] ∧
    (∀ (dm : DataManager) (now : Nat) (ev : RobotEvent),
      ((Station.process_event dm now ev).2.all (fun s => s.1 = Chan.bus)) = true) ∧
    (∀ (recharge_energy : Nat) (app : AppState) (ev : RobotEvent),
      (appHandleEvent recharge_energy app ev).2 = []) := by
  refine ⟨rfl, rfl, ?_, ?_⟩
  · intro dm now ev
    cases ev <;> rfl
  · intro recharge_energy app ev
    cases ev <;> rfl

theorem tryRandomMoves_in_bounds (cfg : RobotTypeConfig) (m : Map) (st : RobotState)
    (k : RobotKnowledge) (ds : List Direction) (hsx : st.x < m.width)
    (hsy : st.y < m.height) :
    (tryRandomMoves cfg m st k ds).1.x < m.width ∧
      (tryRandomMoves cfg m st k ds).1.y < m.height := by
  induction ds with
  | nil => exact ⟨hsx, hsy⟩
  | cons d rest ih =>
    unfold tryRandomMoves
    dsimp only
    split
    · rename_i hguard
      have hvalid : is_valid_move (next_position st.x st.y d m).1
          (next_position st.x st.y d m).2 m = true :=
        (Bool.and_eq_true .. ▸ hguard).1
      simp only [is_valid_move, Bool.and_eq_true, decide_eq_true_eq] at hvalid
      obtain ⟨⟨h1, h2⟩, _⟩ := hvalid
      have hp := use_energy_keeps_position
        { st with x := (next_position st.x st.y d m).1,
                  y := (next_position st.x st.y d m).2 }
        cfg.movement_energy_cost
      rw [hp.1, hp.2.1]
      exact ⟨h1, h2⟩
    · exact ih

/-- Claim C10: movement can never leave the grid. next_position saturates
at the edges, so from an in-bounds position every direction yields an
in-bounds position; is_valid_move accepts exactly the in-bounds
non-obstacle positions; and the step machine's position-changing
operations - the Exploring tick and the ReturningToStation move step -
preserve in-bounds positions, because the position only ever changes
behind an is_valid_move guard. -/
theorem C10_position_stays_in_bounds (m : Map) (x y : Nat) (hx : x < m.width)
    (hy : y < m.height) :
    (∀ d : Direction,
      (next_position x y d m).1 < m.width ∧ (next_position x y d m).2 < m.height) ∧
    (∀ a b : Nat,
      is_valid_move a b m = true ↔ a < m.width ∧ b < m.height ∧ m.is_obstacle a b = false) ∧
    (∀ (cfg : RobotTypeConfig) (dir : Direction) (st : RobotState) (k : RobotKnowledge)
        (v : List (Nat × Nat)), st.x < m.width → st.y < m.height →
      (explorationTick cfg m dir st k v).1.x < m.width ∧
        (explorationTick cfg m dir st k v).1.y < m.height) ∧
    (∀ (cfg : RobotTypeConfig) (sx sy : Nat) (ro : List Direction) (fb : Direction)
        (r4 : List Direction) (st : RobotState) (k : RobotKnowledge),
      st.x < m.width → st.y < m.height →
      (returningMoveStep cfg m sx sy ro fb r4 st k).1.x < m.width ∧
        (returningMoveStep cfg m sx sy ro fb r4 st k).1.y < m.height) := by
  refine ⟨?_, ?_, ?_, ?_⟩
  · intro d
    cases d <;> simp [next_position] <;> omega
  · intro a b
    simp [is_valid_move, and_assoc]
  · intro cfg dir st k v hsx hsy
    unfold explorationTick
    split
    · exact ⟨hsx, hsy⟩
    · dsimp only
      split
      · rename_i hguard
        have hvalid : is_valid_move (next_position st.x st.y dir m).1
            (next_position st.x st.y dir m).2 m = true :=
          (Bool.and_eq_true .. ▸ hguard).1
        simp only [is_valid_move, Bool.and_eq_true, decide_eq_true_eq] at hvalid
        obtain ⟨⟨h1, h2⟩, _⟩ := hvalid
        have hp := use_energy_keeps_position
          { st with x := (next_position st.x st.y dir m).1,
                    y := (next_position st.x st.y dir m).2 }
          cfg.movement_energy_cost
        rw [hp.1, hp.2.1]
        exact ⟨h1, h2⟩
      · exact ⟨hsx, hsy⟩
  · intro cfg sx sy ro fb r4 st k hsx hsy
    unfold returningMoveStep
    dsimp only
    split
    · rename_i hguard
      have hvalid : is_valid_move
          (next_position st.x st.y
            (move_towards_target st.x st.y sx sy k m ro fb) m).1
          (next_position st.x st.y
            (move_towards_target st.x st.y sx sy k m ro fb) m).2 m = true :=
        (Bool.and_eq_true .. ▸ hguard).1
      simp only [is_valid_move, Bool.and_eq_true, decide_eq_true_eq] at hvalid
      obtain ⟨⟨h1, h2⟩, _⟩ := hvalid
      have hp := use_energy_keeps_position
        { st with
            x := (next_position st.x st.y
              (move_towards_target st.x st.y sx sy k m ro fb) m).1,
            y := (next_position st.x st.y
              (move_towards_target st.x st.y sx sy k m ro fb) m).2 }
        cfg.movement_energy_cost
      rw [hp.1, hp.2.1]
      exact ⟨h1, h2⟩
    · exact tryRandomMoves_in_bounds cfg m st k (r4.take 4) hsx hsy

/-- Claim C10 witness: the theorem at the concrete 5x5 witnessMap and
position (1, 2). -/
theorem C10_witness :
    (next_position 1 2 Direction.Up witnessMap).1 < witnessMap.width ∧
      (next_position 1 2 Direction.Up witnessMap).2 < witnessMap.height :=
  (C10_position_stays_in_bounds witnessMap 1 2 (by decide) (by decide)).1 Direction.Up
